import Mathlib

/-!
Verification of the METARMap LED script (`metar.py`).

The script classifies the METAR observation of each airport into a display color
for a NeoPixel strip and appends a legend block.  We embed the pure decision
logic: the hazard flags and color resolution inside `update_led_strip`, the
gust parsing in `parse_metar`, the legend block, the per-pixel IndexError
suppression, and the airport-count gate and unguarded fetch step of `main`.

The module-level configuration constants of the script become fields of a
`Config` value so that properties can be stated for every configuration.
-/

namespace METARMap

/-- RGB color triple, as the Python tuples. -/
abbrev Color := Nat × Nat × Nat

def COLOR_VFR : Color := (0, 255, 0)

def COLOR_VFR_FADE : Color := (0, 125, 0)

def COLOR_MVFR : Color := (0, 0, 255)

def COLOR_MVFR_FADE : Color := (0, 0, 125)

def COLOR_IFR : Color := (255, 0, 0)

def COLOR_IFR_FADE : Color := (125, 0, 0)

def COLOR_LIFR : Color := (255, 0, 255)

def COLOR_LIFR_FADE : Color := (125, 0, 125)

def COLOR_CLEAR : Color := (0, 0, 0)

def COLOR_LIGHTNING : Color := (255, 255, 255)

def COLOR_HIGH_WINDS : Color := (255, 255, 0)

/-- The Python `str.upper()` method as used on airport codes (`airport.upper()`,
metar.py lines 122 and 208), applied character by character. -/
def upper (s : String) : String := String.mk (s.data.map Char.toUpper)

/-- The module-level configuration constants of `metar.py` that the LED
decision logic reads (`ACTIVATE_WIND_ANIMATION`, `ACTIVATE_LIGHTNING_ANIMATION`,
`FADE_INSTEAD_OF_BLINK`, `WIND_BLINK_THRESHOLD`, `HIGH_WINDS_THRESHOLD`,
`ALWAYS_BLINK_FOR_GUSTS`, `SHOW_LEGEND`, `LEGEND_LED_COUNT`,
`OFFSET_LEGEND_BY`, `LED_COUNT`). -/
structure Config where
  activateWindAnimation : Bool
  activateLightningAnimation : Bool
  fadeInsteadOfBlink : Bool
  windBlinkThreshold : Int
  highWindsThreshold : Int
  alwaysBlinkForGusts : Bool
  showLegend : Bool
  legendLedCount : Nat
  offsetLegendBy : Nat
  ledCount : Nat

/-- The fields of a `condition_dict` entry that `update_led_strip` reads
(the remaining fields built by `parse_metar` — visibility, temperature,
dewpoint, altimeter, wx string, observation time — feed only the external
display and are not part of the LED logic). -/
structure Conditions where
  flightCategory : String
  windSpeed : Int
  windGustSpeed : Int
  windGust : Bool
  lightning : Bool

/-- Line 220: `windy = ACTIVATE_WIND_ANIMATION and wind_cycle and
(conditions["windSpeed"] >= WIND_BLINK_THRESHOLD or conditions["windGust"])`
(metar.py line 220). -/
def windy (cfg : Config) (c : Conditions) (wind_cycle : Bool) : Bool :=
  cfg.activateWindAnimation && wind_cycle &&
    (decide (c.windSpeed ≥ cfg.windBlinkThreshold) || c.windGust)

/-- Line 222: `high_winds = windy and HIGH_WINDS_THRESHOLD != -1 and
(windSpeed >= HIGH_WINDS_THRESHOLD or windGustSpeed >= HIGH_WINDS_THRESHOLD)`
(metar.py line 222). -/
def high_winds (cfg : Config) (c : Conditions) (wind_cycle : Bool) : Bool :=
  windy cfg c wind_cycle && decide (cfg.highWindsThreshold ≠ -1) &&
    (decide (c.windSpeed ≥ cfg.highWindsThreshold) ||
     decide (c.windGustSpeed ≥ cfg.highWindsThreshold))

/-- Line 224: `lightning_cond = ACTIVATE_LIGHTNING_ANIMATION and (not wind_cycle) and
conditions["lightning"]` (metar.py line 224). -/
def lightning_cond (cfg : Config) (c : Conditions) (wind_cycle : Bool) : Bool :=
  cfg.activateLightningAnimation && !wind_cycle && c.lightning

/-- The four identical per-category branches of `update_led_strip` (lines
227-262): base color, then lightning, then high winds, then fade-or-blink. -/
def categoryColor (cfg : Config) (base fade : Color) (w l hw : Bool) : Color :=
  if !(w || l) then base
  else if l then COLOR_LIGHTNING
  else if hw then COLOR_HIGH_WINDS
  else if cfg.fadeInsteadOfBlink then fade else COLOR_CLEAR

/-- Color resolution for one airport inside `update_led_strip` (lines
212-262): default `COLOR_CLEAR`, flags and category chain only when a
conditions entry is present; any category outside VFR/MVFR/IFR/LIFR leaves
the default. -/
def airportColor (cfg : Config) (conditions : Option Conditions)
    (wind_cycle : Bool) : Color :=
  match conditions with
  | none => COLOR_CLEAR
  | some c =>
    let w := windy cfg c wind_cycle
    let hw := high_winds cfg c wind_cycle
    let l := lightning_cond cfg c wind_cycle
    if c.flightCategory = "VFR" then categoryColor cfg COLOR_VFR COLOR_VFR_FADE w l hw
    else if c.flightCategory = "MVFR" then categoryColor cfg COLOR_MVFR COLOR_MVFR_FADE w l hw
    else if c.flightCategory = "IFR" then categoryColor cfg COLOR_IFR COLOR_IFR_FADE w l hw
    else if c.flightCategory = "LIFR" then categoryColor cfg COLOR_LIFR COLOR_LIFR_FADE w l hw
    else COLOR_CLEAR

/-- Resolved output for one airport slot at one tick: the color together
with the three hazard flags computed by `update_led_strip`. -/
structure DisplayState where
  color : Color
  windyFlag : Bool
  highWindFlag : Bool
  lightningFlag : Bool
deriving DecidableEq

/-- The classification of one airport in `update_led_strip`: an absent
`condition_dict` entry keeps the defaults (off color, all flags false). -/
def classify (cfg : Config) (conditions : Option Conditions)
    (wind_cycle : Bool) : DisplayState :=
  match conditions with
  | none => ⟨COLOR_CLEAR, false, false, false⟩
  | some c =>
    ⟨airportColor cfg (some c) wind_cycle,
     windy cfg c wind_cycle,
     high_winds cfg c wind_cycle,
     lightning_cond cfg c wind_cycle⟩

/-- The airport loop of `update_led_strip` (lines 206-271) as the list of
attempted `pixels[led_index] = color` writes: a `"NULL"` entry (compared
case-insensitively) advances `led_index` without a write, every other entry
writes at the current `led_index` and advances it. -/
def airportWrites (cfg : Config) (dict : String → Option Conditions)
    (wind_cycle : Bool) : List String → Nat → List (Nat × Color)
  | [], _ => []
  | a :: rest, led_index =>
    if upper a = "NULL" then
      airportWrites cfg dict wind_cycle rest (led_index + 1)
    else
      (led_index, airportColor cfg (dict a) wind_cycle) ::
        airportWrites cfg dict wind_cycle rest (led_index + 1)

/-- The legend block of `update_led_strip` (lines 274-289): when
`SHOW_LEGEND` holds and `legend_start + LEGEND_LED_COUNT <= LED_COUNT`,
four category pixels are always written, the lightning pixel only under
`ACTIVATE_LIGHTNING_ANIMATION`, the wind pixel only under
`ACTIVATE_WIND_ANIMATION`, and the high-wind pixel additionally only when
`HIGH_WINDS_THRESHOLD != -1`; otherwise nothing is written. -/
def legendWrites (cfg : Config) (led_index : Nat) (wind_cycle : Bool) :
    List (Nat × Color) :=
  if cfg.showLegend then
    let legend_start := led_index + cfg.offsetLegendBy
    if legend_start + cfg.legendLedCount ≤ cfg.ledCount then
      [(legend_start, COLOR_VFR), (legend_start + 1, COLOR_MVFR),
       (legend_start + 2, COLOR_IFR), (legend_start + 3, COLOR_LIFR)]
      ++ (if cfg.activateLightningAnimation then
            [(legend_start + 4, if wind_cycle then COLOR_LIGHTNING else COLOR_VFR)]
          else [])
      ++ (if cfg.activateWindAnimation then
            (legend_start + 5,
              if !wind_cycle then COLOR_VFR
              else if cfg.fadeInsteadOfBlink then COLOR_VFR_FADE else COLOR_CLEAR) ::
            (if cfg.highWindsThreshold ≠ -1 then
               [(legend_start + 6, if !wind_cycle then COLOR_VFR else COLOR_HIGH_WINDS)]
             else [])
          else [])
    else []
  else []

/-- The body of `update_led_strip` as the list of applied pixel writes.  The airport
loop wraps each `pixels[led_index] = color` in `try/except IndexError`
(lines 267-270), so out-of-range airport writes are silently dropped;
after the loop `led_index` equals the airport list length and the legend
block is appended. -/
def update_led_strip (cfg : Config) (airports : List String)
    (dict : String → Option Conditions) (wind_cycle : Bool) :
    List (Nat × Color) :=
  (airportWrites cfg dict wind_cycle airports 0).filter
    (fun p => decide (p.1 < cfg.ledCount))
  ++ legendWrites cfg airports.length wind_cycle

/-- The layout gate of `main` (lines 314-316): the run is abandoned (`none`,
nothing written) exactly when `len(airports) > LED_COUNT`; the legend size
plays no part in the check. -/
def mainUpdate (cfg : Config) (airports : List String)
    (dict : String → Option Conditions) (wind_cycle : Bool) :
    Option (List (Nat × Color)) :=
  if airports.length > cfg.ledCount then none
  else some (update_led_strip cfg airports dict wind_cycle)

/-- The fetch-then-render flow of `main` (lines 313-338): the airport count is
checked first, then `fetch_metar_data` runs with no exception handler, so a
fetch failure propagates out of `main` (`Except.error`) before any LED
update; on success the parsed dictionary feeds `update_led_strip`. -/
def mainRun (cfg : Config) (airports : List String)
    (fetch : Except Unit (String → Option Conditions)) (wind_cycle : Bool) :
    Except Unit (Option (List (Nat × Color))) :=
  if airports.length > cfg.ledCount then Except.ok none
  else
    match fetch with
    | Except.error e => Except.error e
    | Except.ok dict => Except.ok (some (update_led_strip cfg airports dict wind_cycle))

/-- The gust handling of `parse_metar` (lines 158-162): with no
`wind_gust_kt` element the flag stays `False` and the speed `0`; with one,
the flag is `ALWAYS_BLINK_FOR_GUSTS or (wind_gust_speed > WIND_BLINK_THRESHOLD)`
(strict comparison). -/
def parse_wind_gust (cfg : Config) (wind_gust_kt : Option Int) : Bool × Int :=
  match wind_gust_kt with
  | none => (false, 0)
  | some g => (cfg.alwaysBlinkForGusts || decide (g > cfg.windBlinkThreshold), g)

/-- The station filter of `fetch_metar_data` (line 122): placeholder
entries are removed from the request. -/
def fetchStations (airports : List String) : List String :=
  airports.filter (fun st => decide (upper st ≠ "NULL"))

/-! ### Concrete inputs for counterexamples and witnesses -/

/-- The configuration shipped in metar.py (lines 51-76): wind animation
off, lightning animation on, fade mode, thresholds 15/25 kt, a 7-LED
legend at offset 0 on a 95-LED strip. -/
def defaultConfig : Config where
  activateWindAnimation := false
  activateLightningAnimation := true
  fadeInsteadOfBlink := true
  windBlinkThreshold := 15
  highWindsThreshold := 25
  alwaysBlinkForGusts := false
  showLegend := true
  legendLedCount := 7
  offsetLegendBy := 0
  ledCount := 95

/-- The shipped configuration with both animations switched on. -/
def windConfig : Config where
  activateWindAnimation := true
  activateLightningAnimation := true
  fadeInsteadOfBlink := true
  windBlinkThreshold := 15
  highWindsThreshold := 25
  alwaysBlinkForGusts := false
  showLegend := true
  legendLedCount := 7
  offsetLegendBy := 0
  ledCount := 95

/-- The shipped configuration on a strip of only 8 LEDs. -/
def smallStripConfig : Config where
  activateWindAnimation := false
  activateLightningAnimation := true
  fadeInsteadOfBlink := true
  windBlinkThreshold := 15
  highWindsThreshold := 25
  alwaysBlinkForGusts := false
  showLegend := true
  legendLedCount := 7
  offsetLegendBy := 0
  ledCount := 8

/-- An observation whose flight category string is unrecognized while
lightning is reported. -/
def obsUnknown : Conditions where
  flightCategory := "UNKNOWN"
  windSpeed := 0
  windGustSpeed := 0
  windGust := false
  lightning := true

/-- A VFR observation with lightning reported. -/
def obsVFRLightning : Conditions where
  flightCategory := "VFR"
  windSpeed := 0
  windGustSpeed := 0
  windGust := false
  lightning := true

/-- A calm IFR observation. -/
def obsIFRCalm : Conditions where
  flightCategory := "IFR"
  windSpeed := 5
  windGustSpeed := 0
  windGust := false
  lightning := false

/-- A VFR observation with 30 kt sustained wind and lightning. -/
def obsWindy : Conditions where
  flightCategory := "VFR"
  windSpeed := 30
  windGustSpeed := 0
  windGust := false
  lightning := true

/-- A VFR observation with sustained wind exactly at the 15 kt blink
threshold and no gust element. -/
def obsBlinkEdge : Conditions where
  flightCategory := "VFR"
  windSpeed := 15
  windGustSpeed := 0
  windGust := false
  lightning := false

/-- The empty observation dictionary. -/
def emptyDict : String → Option Conditions := fun _ => none

/-! ### Helper lemmas -/

/-- Characterization of the airport-loop writes: `(i, col)` is written
exactly when some position `k` of the list holds a non-placeholder code,
`i = start + k`, and `col` is the resolved color of that airport.  In
particular every entry, placeholder or not, consumes exactly one index. -/
theorem mem_airportWrites (cfg : Config) (dict : String → Option Conditions)
    (wind_cycle : Bool) :
    ∀ (airports : List String) (start i : Nat) (col : Color),
      ((i, col) ∈ airportWrites cfg dict wind_cycle airports start ↔
       ∃ k, ∃ h : k < airports.length,
         i = start + k ∧ upper (airports.get ⟨k, h⟩) ≠ "NULL" ∧
         col = airportColor cfg (dict (airports.get ⟨k, h⟩)) wind_cycle) := by
  intro airports
  induction airports with
  | nil =>
    intro start i col
    simp [airportWrites]
  | cons a rest ih =>
    intro start i col
    by_cases hnull : upper a = "NULL"
    · simp only [airportWrites, if_pos hnull]
      rw [ih (start + 1) i col]
      constructor
      · rintro ⟨k, hk, hi, hnn, hc⟩
        refine ⟨k + 1, Nat.succ_lt_succ hk, by omega, ?_, ?_⟩
        · simpa using hnn
        · simpa using hc
      · rintro ⟨k, hk, hi, hnn, hc⟩
        match k, hk with
        | 0, hk =>
          exact absurd (by simpa using hnull) hnn
        | k + 1, hk =>
          refine ⟨k, Nat.lt_of_succ_lt_succ hk, by omega, ?_, ?_⟩
          · simpa using hnn
          · simpa using hc
    · simp only [airportWrites, if_neg hnull, List.mem_cons]
      rw [ih (start + 1) i col]
      constructor
      · rintro (heq | ⟨k, hk, hi, hnn, hc⟩)
        · obtain ⟨hi, hc⟩ := Prod.mk.injEq .. ▸ heq
          refine ⟨0, Nat.succ_pos _, by omega, by simpa using hnull, by simpa using hc⟩
        · refine ⟨k + 1, Nat.succ_lt_succ hk, by omega, ?_, ?_⟩
          · simpa using hnn
          · simpa using hc
      · rintro ⟨k, hk, hi, hnn, hc⟩
        match k, hk with
        | 0, hk =>
          left
          simp only [List.get] at hc
          rw [Prod.mk.injEq]
          exact ⟨by omega, hc⟩
        | k + 1, hk =>
          right
          refine ⟨k, Nat.lt_of_succ_lt_succ hk, by omega, ?_, ?_⟩
          · simpa using hnn
          · simpa using hc

/-- Every applied airport write targets an index below the list length. -/
theorem airportWrites_index_lt (cfg : Config) (dict : String → Option Conditions)
    (wind_cycle : Bool) (airports : List String) (i : Nat) (col : Color)
    (h : (i, col) ∈ airportWrites cfg dict wind_cycle airports 0) :
    i < airports.length := by
  obtain ⟨k, hk, hi, -, -⟩ :=
    (mem_airportWrites cfg dict wind_cycle airports 0 i col).1 h
  omega

/-- Any legend write targets one of the seven legend indices, and the
three indicator indices are only ever written when their feature toggles
are on. -/
theorem mem_legendWrites_cases (cfg : Config) (n : Nat) (wind_cycle : Bool)
    (i : Nat) (col : Color)
    (hmem : (i, col) ∈ legendWrites cfg n wind_cycle) :
    (i = n + cfg.offsetLegendBy ∨ i = n + cfg.offsetLegendBy + 1 ∨
     i = n + cfg.offsetLegendBy + 2 ∨ i = n + cfg.offsetLegendBy + 3) ∨
    (i = n + cfg.offsetLegendBy + 4 ∧ cfg.activateLightningAnimation = true) ∨
    (i = n + cfg.offsetLegendBy + 5 ∧ cfg.activateWindAnimation = true) ∨
    (i = n + cfg.offsetLegendBy + 6 ∧ cfg.activateWindAnimation = true ∧
      cfg.highWindsThreshold ≠ -1) := by
  simp only [legendWrites] at hmem
  split at hmem
  · split at hmem
    · rw [List.append_assoc, List.mem_append, List.mem_append] at hmem
      rcases hmem with hbase | hA | hB
      · simp only [List.mem_cons, List.not_mem_nil, or_false,
          Prod.mk.injEq] at hbase
        rcases hbase with ⟨h, -⟩ | ⟨h, -⟩ | ⟨h, -⟩ | ⟨h, -⟩
        · exact Or.inl (Or.inl h)
        · exact Or.inl (Or.inr (Or.inl h))
        · exact Or.inl (Or.inr (Or.inr (Or.inl h)))
        · exact Or.inl (Or.inr (Or.inr (Or.inr h)))
      · split at hA
        · rename_i hla
          simp only [List.mem_singleton, Prod.mk.injEq] at hA
          exact Or.inr (Or.inl ⟨hA.1, hla⟩)
        · simp at hA
      · split at hB
        · rename_i hwa
          rcases List.mem_cons.1 hB with h5 | h6
          · simp only [Prod.mk.injEq] at h5
            exact Or.inr (Or.inr (Or.inl ⟨h5.1, hwa⟩))
          · split at h6
            · rename_i hht
              simp only [List.mem_singleton, Prod.mk.injEq] at h6
              exact Or.inr (Or.inr (Or.inr ⟨h6.1, hwa, hht⟩))
            · simp at h6
        · simp at hB
    · simp at hmem
  · simp at hmem

/-- Under an enabled legend that fits, the four category pixels are always
written. -/
theorem legend_base_mem (cfg : Config) (n : Nat) (wind_cycle : Bool)
    (hshow : cfg.showLegend = true)
    (hguard : n + cfg.offsetLegendBy + cfg.legendLedCount ≤ cfg.ledCount) :
    (n + cfg.offsetLegendBy, COLOR_VFR) ∈ legendWrites cfg n wind_cycle ∧
    (n + cfg.offsetLegendBy + 1, COLOR_MVFR) ∈ legendWrites cfg n wind_cycle ∧
    (n + cfg.offsetLegendBy + 2, COLOR_IFR) ∈ legendWrites cfg n wind_cycle ∧
    (n + cfg.offsetLegendBy + 3, COLOR_LIFR) ∈ legendWrites cfg n wind_cycle := by
  simp only [legendWrites, hshow, if_true]
  rw [if_pos (by omega)]
  refine ⟨?_, ?_, ?_, ?_⟩ <;> simp

/-- Under an enabled legend that fits, lightning animation writes the
lightning legend pixel. -/
theorem legend_lightning_mem (cfg : Config) (n : Nat) (wind_cycle : Bool)
    (hshow : cfg.showLegend = true)
    (hguard : n + cfg.offsetLegendBy + cfg.legendLedCount ≤ cfg.ledCount)
    (hla : cfg.activateLightningAnimation = true) :
    (n + cfg.offsetLegendBy + 4,
      if wind_cycle then COLOR_LIGHTNING else COLOR_VFR) ∈
      legendWrites cfg n wind_cycle := by
  simp only [legendWrites, hshow, if_true]
  rw [if_pos (by omega)]
  simp [hla]

/-- Under an enabled legend that fits, wind animation writes the wind
legend pixel. -/
theorem legend_wind_mem (cfg : Config) (n : Nat) (wind_cycle : Bool)
    (hshow : cfg.showLegend = true)
    (hguard : n + cfg.offsetLegendBy + cfg.legendLedCount ≤ cfg.ledCount)
    (hwa : cfg.activateWindAnimation = true) :
    (n + cfg.offsetLegendBy + 5,
      if !wind_cycle then COLOR_VFR
      else if cfg.fadeInsteadOfBlink then COLOR_VFR_FADE else COLOR_CLEAR) ∈
      legendWrites cfg n wind_cycle := by
  simp only [legendWrites, hshow, if_true]
  rw [if_pos (by omega)]
  simp [hwa]

/-- Under an enabled legend that fits, wind animation with an enabled
high-wind threshold writes the high-wind legend pixel. -/
theorem legend_highwind_mem (cfg : Config) (n : Nat) (wind_cycle : Bool)
    (hshow : cfg.showLegend = true)
    (hguard : n + cfg.offsetLegendBy + cfg.legendLedCount ≤ cfg.ledCount)
    (hwa : cfg.activateWindAnimation = true)
    (hht : cfg.highWindsThreshold ≠ -1) :
    (n + cfg.offsetLegendBy + 6,
      if !wind_cycle then COLOR_VFR else COLOR_HIGH_WINDS) ∈
      legendWrites cfg n wind_cycle := by
  simp only [legendWrites, hshow, if_true]
  rw [if_pos (by omega)]
  simp [hwa, hht]

/-- Writes of `update_led_strip` at or beyond the airport block come
exactly from the legend block. -/
theorem mem_update_led_strip_high (cfg : Config) (airports : List String)
    (dict : String → Option Conditions) (wind_cycle : Bool) (i : Nat)
    (col : Color) (hi : airports.length ≤ i) :
    ((i, col) ∈ update_led_strip cfg airports dict wind_cycle ↔
     (i, col) ∈ legendWrites cfg airports.length wind_cycle) := by
  simp only [update_led_strip, List.mem_append]
  constructor
  · rintro (hmem | hmem)
    · exfalso
      have := airportWrites_index_lt cfg dict wind_cycle airports i col
        (List.mem_of_mem_filter hmem)
      omega
    · exact hmem
  · exact Or.inr

/-! ### Claims -/

/-- C1, counterexample: for an observation whose flight category string is
unrecognized, the lightning flag is active (lightning animation on,
off-phase, lightning reported) yet `update_led_strip` leaves the default
off color, not the lightning color — the category chain of lines 227-262
never runs its lightning branch for an unrecognized category. -/
theorem metar_C1_counterexample :
    lightning_cond defaultConfig obsUnknown false = true ∧
    airportColor defaultConfig (some obsUnknown) false = COLOR_CLEAR ∧
    COLOR_CLEAR ≠ COLOR_LIGHTNING := by
  refine ⟨by decide, by decide, by decide⟩

/-- C1, amended: for every observation whose flight category is one of
VFR, MVFR, IFR, LIFR, whenever the lightning flag is active the resulting
color is the lightning color, whatever the windy and high-wind flags. -/
theorem metar_C1_amended (cfg : Config) (c : Conditions) (wind_cycle : Bool)
    (hcat : c.flightCategory = "VFR" ∨ c.flightCategory = "MVFR" ∨
            c.flightCategory = "IFR" ∨ c.flightCategory = "LIFR")
    (hl : lightning_cond cfg c wind_cycle = true) :
    airportColor cfg (some c) wind_cycle = COLOR_LIGHTNING := by
  rcases hcat with h | h | h | h <;>
    simp [airportColor, categoryColor, h, hl]

/-- C1, witness: a VFR observation with active lightning flag resolves to
the lightning color. -/
theorem metar_C1_witness :
    lightning_cond defaultConfig obsVFRLightning false = true ∧
    airportColor defaultConfig (some obsVFRLightning) false = COLOR_LIGHTNING :=
  ⟨by decide,
   metar_C1_amended defaultConfig obsVFRLightning false (Or.inl rfl) (by decide)⟩

/-- C3: with neither the windy nor the lightning flag active, the resolved
color is exactly the base color of the category — VFR green, MVFR blue, IFR
red, LIFR magenta — and any other category string yields the off color;
the embedding is total, so no input raises. -/
theorem metar_C3 (cfg : Config) (c : Conditions) (wind_cycle : Bool)
    (hw : windy cfg c wind_cycle = false)
    (hl : lightning_cond cfg c wind_cycle = false) :
    airportColor cfg (some c) wind_cycle =
      (if c.flightCategory = "VFR" then COLOR_VFR
       else if c.flightCategory = "MVFR" then COLOR_MVFR
       else if c.flightCategory = "IFR" then COLOR_IFR
       else if c.flightCategory = "LIFR" then COLOR_LIFR
       else COLOR_CLEAR) := by
  simp [airportColor, categoryColor, hw, hl]

/-- C3, witness: a calm IFR observation under the shipped configuration
resolves to the IFR base color. -/
theorem metar_C3_witness :
    windy defaultConfig obsIFRCalm false = false ∧
    lightning_cond defaultConfig obsIFRCalm false = false ∧
    airportColor defaultConfig (some obsIFRCalm) false = COLOR_IFR :=
  ⟨by decide, by decide,
   (metar_C3 defaultConfig obsIFRCalm false (by decide) (by decide)).trans (by decide)⟩

/-- C4, counterexample: there is no single phase value gating both hazard
flags — with both animations on, 30 kt wind, and lightning reported, the
windy flag fires at `wind_cycle = true` while the lightning flag fires at
`wind_cycle = false` (lines 220 and 224 use `wind_cycle` and
`not wind_cycle` respectively). -/
theorem metar_C4_counterexample :
    ¬ ∃ p : Bool, ∀ (cfg : Config) (c : Conditions) (wind_cycle : Bool),
        (windy cfg c wind_cycle = true → wind_cycle = p) ∧
        (lightning_cond cfg c wind_cycle = true → wind_cycle = p) := by
  rintro ⟨p, h⟩
  have h1 : (true : Bool) = p := (h windConfig obsWindy true).1 (by decide)
  have h2 : (false : Bool) = p := (h windConfig obsWindy false).2 (by decide)
  rw [← h1] at h2
  exact absurd h2 (by decide)

/-- C4, amended: the two hazard conditions are gated on opposite phase
values — the windy flag is always false when `wind_cycle` is false, the
lightning flag is always false when `wind_cycle` is true, and consequently
the two flags are never simultaneously active. -/
theorem metar_C4_amended (cfg : Config) (c : Conditions) :
    windy cfg c false = false ∧ lightning_cond cfg c true = false ∧
      ∀ wind_cycle, (windy cfg c wind_cycle && lightning_cond cfg c wind_cycle) = false := by
  refine ⟨by simp [windy], by simp [lightning_cond], ?_⟩
  intro wc
  cases wc <;> simp [windy, lightning_cond]

/-- C5: an active high-wind flag forces the windy flag, an enabled
threshold (not the -1 sentinel), and wind or gust speed at least that
threshold — exactly line 222. -/
theorem metar_C5 (cfg : Config) (c : Conditions) (wind_cycle : Bool)
    (h : high_winds cfg c wind_cycle = true) :
    windy cfg c wind_cycle = true ∧ cfg.highWindsThreshold ≠ -1 ∧
      (cfg.highWindsThreshold ≤ c.windSpeed ∨
       cfg.highWindsThreshold ≤ c.windGustSpeed) := by
  simp only [high_winds, Bool.and_eq_true, Bool.or_eq_true, decide_eq_true_eq] at h
  exact ⟨h.1.1, h.1.2, h.2⟩

/-- C5, witness: 30 kt sustained wind at the on-phase with wind animation
enabled activates the high-wind flag, and the consequences hold. -/
theorem metar_C5_witness :
    high_winds windConfig obsWindy true = true ∧
    (windy windConfig obsWindy true = true ∧ windConfig.highWindsThreshold ≠ -1 ∧
      (windConfig.highWindsThreshold ≤ obsWindy.windSpeed ∨
       windConfig.highWindsThreshold ≤ obsWindy.windGustSpeed)) :=
  ⟨by decide, metar_C5 windConfig obsWindy true (by decide)⟩

/-- C7: an absent observation classifies to the off color with all three
hazard flags false, for every configuration and phase. -/
theorem metar_C7 (cfg : Config) (wind_cycle : Bool) :
    classify cfg none wind_cycle = ⟨COLOR_CLEAR, false, false, false⟩ := rfl

/-- C9: a missing `wind_gust_kt` element leaves the parsed gust flag false
even when `ALWAYS_BLINK_FOR_GUSTS` is on; when the element is present the
gust condition is strict (a gust exactly at the blink threshold does not
set the flag without the toggle), while the sustained-wind check of
line 220 is non-strict (wind exactly at the threshold makes windy fire). -/
theorem metar_C9 (cfg : Config) (c : Conditions) :
    (parse_wind_gust cfg none).1 = false ∧
    (cfg.alwaysBlinkForGusts = false →
      (parse_wind_gust cfg (some cfg.windBlinkThreshold)).1 = false) ∧
    (cfg.activateWindAnimation = true → c.windSpeed = cfg.windBlinkThreshold →
      windy cfg c true = true) := by
  refine ⟨rfl, ?_, ?_⟩
  · intro h
    simp [parse_wind_gust, h]
  · intro ha hs
    simp [windy, ha, hs]

/-- C9, witness: with the gust toggle off, a gust of exactly 15 kt against
the 15 kt threshold does not set the flag, while 15 kt sustained wind does
make the windy flag fire at the on-phase. -/
theorem metar_C9_witness :
    windConfig.alwaysBlinkForGusts = false ∧
    obsBlinkEdge.windSpeed = windConfig.windBlinkThreshold ∧
    (parse_wind_gust windConfig (some windConfig.windBlinkThreshold)).1 = false ∧
    windy windConfig obsBlinkEdge true = true :=
  ⟨rfl, rfl,
   (metar_C9 windConfig obsBlinkEdge).2.1 rfl,
   (metar_C9 windConfig obsBlinkEdge).2.2 rfl rfl⟩

/-- C8: a placeholder entry (case-insensitive "NULL") at position `k`
consumes LED index `k` without ever being written (so later airports keep
their full-list position, shifted by one per preceding placeholder) and is
excluded from the fetch request; a non-placeholder entry at position `k`
is written exactly at LED index `k` with its looked-up color. -/
theorem metar_C8 (cfg : Config) (dict : String → Option Conditions)
    (wind_cycle : Bool) (airports : List String) (k : Nat)
    (h : k < airports.length) :
    (upper (airports.get ⟨k, h⟩) = "NULL" →
       (∀ col, (k, col) ∉ airportWrites cfg dict wind_cycle airports 0) ∧
       airports.get ⟨k, h⟩ ∉ fetchStations airports) ∧
    (upper (airports.get ⟨k, h⟩) ≠ "NULL" →
       (k, airportColor cfg (dict (airports.get ⟨k, h⟩)) wind_cycle) ∈
         airportWrites cfg dict wind_cycle airports 0) := by
  constructor
  · intro hnull
    constructor
    · intro col hmem
      obtain ⟨k2, hk2, hi, hnn, -⟩ :=
        (mem_airportWrites cfg dict wind_cycle airports 0 k col).1 hmem
      have hkk : k2 = k := by omega
      subst hkk
      exact hnn hnull
    · intro hmem
      rw [fetchStations, List.mem_filter] at hmem
      exact (of_decide_eq_true hmem.2) hnull
  · intro hnn
    exact (mem_airportWrites cfg dict wind_cycle airports 0 k _).2
      ⟨k, h, (Nat.zero_add k).symm, hnn, rfl⟩

/-- C8, witness: in `["KSFO", "null", "KOAK"]` the placeholder sits at
position 1 and `"KOAK"` at position 2 is written at LED index 2. -/
theorem metar_C8_witness :
    2 < (["KSFO", "null", "KOAK"] : List String).length ∧
    upper "KOAK" ≠ "NULL" ∧
    (2, airportColor defaultConfig (emptyDict "KOAK") false) ∈
      airportWrites defaultConfig emptyDict false ["KSFO", "null", "KOAK"] 0 :=
  ⟨by decide, by decide,
   (metar_C8 defaultConfig emptyDict false ["KSFO", "null", "KOAK"] 2
      (by decide)).2 (by decide)⟩

/-- C2, counterexample: two airports plus the 7-LED legend need 9 LEDs,
but on an 8-LED strip the gate in `main` (which compares the airport count
alone against `LED_COUNT`) lets the update through: both airport pixels
are written and only the legend is dropped — a partial assignment instead
of a rejected layout. -/
theorem metar_C2_counterexample :
    smallStripConfig.ledCount <
      (["KSFO", "KOAK"] : List String).length + smallStripConfig.offsetLegendBy +
        smallStripConfig.legendLedCount ∧
    mainUpdate smallStripConfig ["KSFO", "KOAK"] emptyDict false =
      some [(0, COLOR_CLEAR), (1, COLOR_CLEAR)] ∧
    some [(0, COLOR_CLEAR), (1, COLOR_CLEAR)] ≠
      (none : Option (List (Nat × Color))) ∧
    [(0, COLOR_CLEAR), (1, COLOR_CLEAR)] ≠ ([] : List (Nat × Color)) := by
  refine ⟨by decide, by decide, by decide, by decide⟩

/-- C2, amended: when the airports alone fit but airports plus legend do
not, the update is not rejected — the gate in `main` passes (it ignores the
legend size), every airport pixel is written, and only the legend block is
skipped. -/
theorem metar_C2_amended (cfg : Config) (airports : List String)
    (dict : String → Option Conditions) (wind_cycle : Bool)
    (hshow : cfg.showLegend = true)
    (hfit : airports.length ≤ cfg.ledCount)
    (hshort : cfg.ledCount <
      airports.length + cfg.offsetLegendBy + cfg.legendLedCount) :
    legendWrites cfg airports.length wind_cycle = [] ∧
    mainUpdate cfg airports dict wind_cycle =
      some (airportWrites cfg dict wind_cycle airports 0) := by
  have hleg : legendWrites cfg airports.length wind_cycle = [] := by
    simp only [legendWrites, hshow, if_true]
    rw [if_neg (by omega)]
  refine ⟨hleg, ?_⟩
  simp only [mainUpdate]
  rw [if_neg (by omega)]
  simp only [update_led_strip, hleg, List.append_nil]
  refine congrArg some (List.filter_eq_self.2 ?_)
  rintro ⟨i, col⟩ hmem
  have hlt := airportWrites_index_lt cfg dict wind_cycle airports i col hmem
  simp only [decide_eq_true_eq]
  omega

/-- C2, witness: the counterexample configuration satisfies the amended
statement — airports rendered, legend empty. -/
theorem metar_C2_witness :
    smallStripConfig.showLegend = true ∧
    (["KSFO", "KOAK"] : List String).length ≤ smallStripConfig.ledCount ∧
    smallStripConfig.ledCount <
      (["KSFO", "KOAK"] : List String).length + smallStripConfig.offsetLegendBy +
        smallStripConfig.legendLedCount ∧
    (legendWrites smallStripConfig (["KSFO", "KOAK"] : List String).length true = [] ∧
     mainUpdate smallStripConfig ["KSFO", "KOAK"] emptyDict true =
       some (airportWrites smallStripConfig emptyDict true ["KSFO", "KOAK"] 0)) :=
  ⟨rfl, by decide, by decide,
   metar_C2_amended smallStripConfig ["KSFO", "KOAK"] emptyDict true rfl
     (by decide) (by decide)⟩

/-- C6, counterexample: `fetch_metar_data` and `main` install no handler
around the fetch, so a failed fetch propagates as an error and the run
produces no render at all — it does not fall back to previously cached
observations. -/
theorem metar_C6_counterexample :
    mainRun defaultConfig ["KSEA"] (Except.error ()) false = Except.error () ∧
    (mainRun defaultConfig ["KSEA"] (Except.error ()) false).isOk = false :=
  ⟨rfl, rfl⟩

/-- C6, amended: whenever the airport-count gate passes, a fetch failure
aborts the run with the error before any LED update; the script holds no
previous observation set to fall back on (one fetch per run). -/
theorem metar_C6_amended (cfg : Config) (airports : List String)
    (wind_cycle : Bool) (h : airports.length ≤ cfg.ledCount) :
    mainRun cfg airports (Except.error ()) wind_cycle = Except.error () := by
  simp only [mainRun]
  rw [if_neg (by omega)]

/-- C6, witness: one airport on the shipped 95-LED strip, failing fetch. -/
theorem metar_C6_witness :
    (["KSEA"] : List String).length ≤ defaultConfig.ledCount ∧
    mainRun defaultConfig ["KSEA"] (Except.error ()) true = Except.error () :=
  ⟨by decide, metar_C6_amended defaultConfig ["KSEA"] true (by decide)⟩

/-- C10: with the legend enabled and fitting on the strip, the four
category legend pixels are always written by the update; the lightning
legend pixel is written exactly under `ACTIVATE_LIGHTNING_ANIMATION`, the
wind legend pixel exactly under `ACTIVATE_WIND_ANIMATION`, and the
high-wind legend pixel exactly under wind animation with a non-sentinel
threshold — otherwise those indices receive no write at all. -/
theorem metar_C10 (cfg : Config) (airports : List String)
    (dict : String → Option Conditions) (wind_cycle : Bool)
    (hshow : cfg.showLegend = true)
    (hfit : airports.length + cfg.offsetLegendBy + cfg.legendLedCount ≤
      cfg.ledCount) :
    ((airports.length + cfg.offsetLegendBy, COLOR_VFR) ∈
        update_led_strip cfg airports dict wind_cycle ∧
     (airports.length + cfg.offsetLegendBy + 1, COLOR_MVFR) ∈
        update_led_strip cfg airports dict wind_cycle ∧
     (airports.length + cfg.offsetLegendBy + 2, COLOR_IFR) ∈
        update_led_strip cfg airports dict wind_cycle ∧
     (airports.length + cfg.offsetLegendBy + 3, COLOR_LIFR) ∈
        update_led_strip cfg airports dict wind_cycle) ∧
    (cfg.activateLightningAnimation = true →
      (airports.length + cfg.offsetLegendBy + 4,
        if wind_cycle then COLOR_LIGHTNING else COLOR_VFR) ∈
        update_led_strip cfg airports dict wind_cycle) ∧
    (cfg.activateLightningAnimation = false →
      ∀ col, (airports.length + cfg.offsetLegendBy + 4, col) ∉
        update_led_strip cfg airports dict wind_cycle) ∧
    (cfg.activateWindAnimation = true →
      (airports.length + cfg.offsetLegendBy + 5,
        if !wind_cycle then COLOR_VFR
        else if cfg.fadeInsteadOfBlink then COLOR_VFR_FADE else COLOR_CLEAR) ∈
        update_led_strip cfg airports dict wind_cycle) ∧
    (cfg.activateWindAnimation = false →
      ∀ col, (airports.length + cfg.offsetLegendBy + 5, col) ∉
        update_led_strip cfg airports dict wind_cycle) ∧
    (cfg.activateWindAnimation = true → cfg.highWindsThreshold ≠ -1 →
      (airports.length + cfg.offsetLegendBy + 6,
        if !wind_cycle then COLOR_VFR else COLOR_HIGH_WINDS) ∈
        update_led_strip cfg airports dict wind_cycle) ∧
    ((cfg.activateWindAnimation = false ∨ cfg.highWindsThreshold = -1) →
      ∀ col, (airports.length + cfg.offsetLegendBy + 6, col) ∉
        update_led_strip cfg airports dict wind_cycle) := by
  have hb := legend_base_mem cfg airports.length wind_cycle hshow hfit
  refine ⟨⟨?_, ?_, ?_, ?_⟩, ?_, ?_, ?_, ?_, ?_, ?_⟩
  · exact (mem_update_led_strip_high cfg airports dict wind_cycle
      (airports.length + cfg.offsetLegendBy) COLOR_VFR (by omega)).2 hb.1
  · exact (mem_update_led_strip_high cfg airports dict wind_cycle
      (airports.length + cfg.offsetLegendBy + 1) COLOR_MVFR (by omega)).2 hb.2.1
  · exact (mem_update_led_strip_high cfg airports dict wind_cycle
      (airports.length + cfg.offsetLegendBy + 2) COLOR_IFR (by omega)).2 hb.2.2.1
  · exact (mem_update_led_strip_high cfg airports dict wind_cycle
      (airports.length + cfg.offsetLegendBy + 3) COLOR_LIFR (by omega)).2 hb.2.2.2
  · intro hla
    exact (mem_update_led_strip_high cfg airports dict wind_cycle
      (airports.length + cfg.offsetLegendBy + 4) _ (by omega)).2
      (legend_lightning_mem cfg airports.length wind_cycle hshow hfit hla)
  · intro hla col hmem
    have hcases := mem_legendWrites_cases cfg airports.length wind_cycle
      (airports.length + cfg.offsetLegendBy + 4) col
      ((mem_update_led_strip_high cfg airports dict wind_cycle
        (airports.length + cfg.offsetLegendBy + 4) col (by omega)).1 hmem)
    rcases hcases with (h | h | h | h) | ⟨h, hla2⟩ | ⟨h, hwa2⟩ | ⟨h, hwa2, hht2⟩
    · omega
    · omega
    · omega
    · omega
    · rw [hla] at hla2
      exact Bool.noConfusion hla2
    · omega
    · omega
  · intro hwa
    exact (mem_update_led_strip_high cfg airports dict wind_cycle
      (airports.length + cfg.offsetLegendBy + 5) _ (by omega)).2
      (legend_wind_mem cfg airports.length wind_cycle hshow hfit hwa)
  · intro hwa col hmem
    have hcases := mem_legendWrites_cases cfg airports.length wind_cycle
      (airports.length + cfg.offsetLegendBy + 5) col
      ((mem_update_led_strip_high cfg airports dict wind_cycle
        (airports.length + cfg.offsetLegendBy + 5) col (by omega)).1 hmem)
    rcases hcases with (h | h | h | h) | ⟨h, hla2⟩ | ⟨h, hwa2⟩ | ⟨h, hwa2, hht2⟩
    · omega
    · omega
    · omega
    · omega
    · omega
    · rw [hwa] at hwa2
      exact Bool.noConfusion hwa2
    · omega
  · intro hwa hht
    exact (mem_update_led_strip_high cfg airports dict wind_cycle
      (airports.length + cfg.offsetLegendBy + 6) _ (by omega)).2
      (legend_highwind_mem cfg airports.length wind_cycle hshow hfit hwa hht)
  · intro hdis col hmem
    have hcases := mem_legendWrites_cases cfg airports.length wind_cycle
      (airports.length + cfg.offsetLegendBy + 6) col
      ((mem_update_led_strip_high cfg airports dict wind_cycle
        (airports.length + cfg.offsetLegendBy + 6) col (by omega)).1 hmem)
    rcases hcases with (h | h | h | h) | ⟨h, hla2⟩ | ⟨h, hwa2⟩ | ⟨h, hwa2, hht2⟩
    · omega
    · omega
    · omega
    · omega
    · omega
    · omega
    · rcases hdis with hwa | hht
      · rw [hwa] at hwa2
        exact Bool.noConfusion hwa2
      · exact hht2 hht

/-- C10, witness: one airport under the shipped configuration (lightning
animation on, wind animation off): the first category legend pixel and the
lightning legend pixel are both written. -/
theorem metar_C10_witness :
    defaultConfig.showLegend = true ∧
    (["KSEA"] : List String).length + defaultConfig.offsetLegendBy +
        defaultConfig.legendLedCount ≤ defaultConfig.ledCount ∧
    ((["KSEA"] : List String).length + defaultConfig.offsetLegendBy, COLOR_VFR) ∈
      update_led_strip defaultConfig ["KSEA"] emptyDict false ∧
    ((["KSEA"] : List String).length + defaultConfig.offsetLegendBy + 4, COLOR_VFR) ∈
      update_led_strip defaultConfig ["KSEA"] emptyDict false :=
  ⟨rfl, by decide,
   (metar_C10 defaultConfig ["KSEA"] emptyDict false rfl (by decide)).1.1,
   (metar_C10 defaultConfig ["KSEA"] emptyDict false rfl (by decide)).2.1 rfl⟩

end METARMap
